import Mathlib

/-!
Shallow embedding of the anyio-typer bridge and registration facade
(file src/anyio_typer/__init__.py of the repository), together with models
of the two external collaborators the glue composes: the structured
concurrency runtime (anyio) and the command line dispatch framework
(typer).  The external pieces are modelled from the contracts the
specification states for them; everything under the bridge and facade
definitions follows the repository source line by line.
-/

namespace AnyioTyperModel

/-- A Python exception value, identified by its type name and its message. -/
structure Exc where
  ty : String
  msg : String
deriving DecidableEq

/-- Outcome of driving a Python call to completion: a returned value or a
raised exception. -/
inductive PyResult (α : Type) where
  | ok (val : α) : PyResult α
  | exc (e : Exc) : PyResult α
deriving DecidableEq

/-- One declared parameter of a Python callable as introspection reports it:
its name, its annot ation and its declared default (none when required). -/
structure Param where
  name : String
  annot : String
  defaultVal : Option String
deriving DecidableEq

/-- The introspectable metadata of a Python callable: its dunder name, its
dunder doc and its declared parameters (names, types, defaults). -/
structure FuncMeta where
  name : String
  doc : String
  params : List Param
deriving DecidableEq

/-- An asynchronous handler F: its introspectable metadata together with the
value or exception that awaiting F applied to packed args and kwargs yields
once an event loop drives the coroutine to completion. -/
structure AsyncFn (Args Kw α : Type) where
  meta : FuncMeta
  call : Args → Kw → PyResult α

/-- Address identifying one Python dict object; dicts are passed around by
reference. -/
abbrev Addr := Nat

/-- Contents of a backend options mapping: configuration keys to values
(values rendered as strings in the model). -/
abbrev Dict := List (String × String)

/-- The store of dict objects.  Python mutation of a dict in place is
modelled as an update of the store at the address of the dict. -/
structure Heap where
  cells : Addr → Dict

/-- Reads the current contents of the dict object at address a. -/
def Heap.get (h : Heap) (a : Addr) : Dict := h.cells a

/-- Mutates the dict object at address a in place, so every holder of the
reference observes the new contents. -/
def Heap.set (h : Heap) (a : Addr) (d : Dict) : Heap :=
  ⟨fun x => if x = a then d else h.cells x⟩

/-- Python evaluates the default expression of an optional parameter once,
when the enclosing def statement runs.  The module defines four callables
whose options parameter defaults to a fresh empty dict literal, so importing
the module creates four distinct dict objects, one per def.  This is the
default object of the bridge constructor (source line 107). -/
def wrapOptionsDefault : Addr := 0

/-- Default options dict object of anyio_callback (source line 135). -/
def callbackOptionsDefault : Addr := 1

/-- Default options dict object of anyio_command (source line 189). -/
def commandOptionsDefault : Addr := 2

/-- Default options dict object of the module level run (source line 421). -/
def runOptionsDefault : Addr := 3

/-- The store right after module import: every default dict is empty. -/
def initHeap : Heap := ⟨fun _ => []⟩

/-- State of the calling thread as far as the runtime cares: whether an
event loop is already running on it. -/
structure ThreadState where
  loopRunning : Bool
deriving DecidableEq

/-- A dispatcher configuration value: either the declared default
placeholder (the Default sentinel of the dispatcher, which wraps a payload)
or a value the caller set explicitly. -/
inductive DParam (β : Type) where
  | default (payload : β) : DParam β
  | set (value : β) : DParam β
deriving DecidableEq

/-- Backend names the runtime recognizes; the docstring at source lines 217
to 219 names asyncio and trio. -/
def recognized_backends : List String := ["asyncio", "trio"]

/-- Modelled from the spec: the blocking run entry point of the external
structured concurrency runtime (anyio.run), which this repository only
calls.  Section 6 of the spec gives its contract: it receives a zero
argument async entry point with its packed arguments, a backend name and
the backend options mapping (here by reference, as Python passes dict
objects), and it returns the handler result; it raises a loop already
running condition when a loop is already active on the calling thread, a
backend not found condition when the backend name is unrecognized, and it
propagates handler failures verbatim. -/
def anyio_run {Args Kw α : Type} (mainFn : Args → Kw → PyResult α)
    (args : Args) (kwargs : Kw) (backend : String) (backend_options : Addr)
    (h : Heap) (st : ThreadState) : PyResult α :=
  if st.loopRunning then
    PyResult.exc ⟨"RuntimeError", "Already running asyncio in this thread"⟩
  else if backend ∈ recognized_backends then
    mainFn args kwargs
  else
    PyResult.exc ⟨"LookupError", "No such backend: " ++ backend⟩

/-- Models functools.wraps (the wraps decorator applied to sync_func at
source line 114): it copies the dunder name, doc and annot ation attributes
of the wrapped function onto the wrapper and records the wrapped function,
so that signature introspection reports the parameters of the wrapped
function.  Every metadata field the model tracks therefore comes from the
wrapped function. -/
def functools_wraps (wrapped : FuncMeta) (wrapper : FuncMeta) : FuncMeta :=
  { name := wrapped.name, doc := wrapped.doc, params := wrapped.params }

/-- The raw metadata the inner def sync_func (source lines 115 to 128) would
present without the wraps decorator: its own name, no docstring, and a star
args double star kwargs signature. -/
def sync_func_raw_meta : FuncMeta :=
  ⟨"sync_func", "", [⟨"args", "P.args", none⟩, ⟨"kwargs", "P.kwargs", none⟩]⟩

/-- The synchronous wrapper closure sync_func produced by the bridge
constructor (source lines 103 to 130): it presents the metadata installed by
wraps and captures the handler, the backend name and the options dict
reference from the enclosing call. -/
structure SyncFunc (Args Kw α : Type) where
  meta : FuncMeta
  func : AsyncFn Args Kw α
  backend : String
  optionsRef : Addr

/-- The bridge constructor (method _wrap, source lines 103 to 130): builds
sync_func, a synchronous function that closes over func, backend and options
and carries the metadata of func via wraps.  The Python declared defaults
are backend asyncio and options the default dict object wrapOptionsDefault. -/
def _wrap {Args Kw α : Type} (func : AsyncFn Args Kw α) (backend : String)
    (options : Addr) : SyncFunc Args Kw α :=
  ⟨functools_wraps func.meta sync_func_raw_meta, func, backend, options⟩

/-- Calling sync_func (source lines 115 to 128): the inner async entry point
awaits func with the packed args and kwargs, and the call returns the value
of anyio.run applied to that entry point with the captured backend name and
the captured options reference. -/
def SyncFunc.call {Args Kw α : Type} (g : SyncFunc Args Kw α) (args : Args)
    (kwargs : Kw) (h : Heap) (st : ThreadState) : PyResult α :=
  anyio_run (fun a k => g.func.call a k) args kwargs g.backend g.optionsRef h st

/-- Observable shape of the runtime invocation one wrapper call issues
(source lines 122 to 128): the backend name, the options dict reference, the
contents that dict holds at call time, and the packed arguments. -/
structure RunCall (Args Kw : Type) where
  backend : String
  optionsAddr : Addr
  options_contents : Dict
  args : Args
  kwargs : Kw
deriving DecidableEq

/-- The call to the runtime blocking run entry point that one invocation of
the wrapper issues. -/
def SyncFunc.runtimeCall {Args Kw α : Type} (g : SyncFunc Args Kw α)
    (args : Args) (kwargs : Kw) (h : Heap) : RunCall Args Kw :=
  ⟨g.backend, g.optionsRef, h.get g.optionsRef, args, kwargs⟩

/-- Modelled from the spec: the record the dispatcher stores for one
registered command (the CommandInfo of typer); every configuration
parameter is stored verbatim next to the registered synchronous callable. -/
structure CommandInfo (Args Kw α : Type) where
  name : Option String
  cls : Option String
  context_settings : Option Dict
  callback : SyncFunc Args Kw α
  help : Option String
  epilog : Option String
  short_help : Option String
  options_metavar : String
  add_help_option : Bool
  no_args_is_help : Bool
  hidden : Bool
  deprecated : Bool
  rich_help_panel : DParam (Option String)

/-- Modelled from the spec: the record the dispatcher stores for the top
level callback registration (the TyperInfo fields relevant here); each
configuration value is stored verbatim, still wrapped in its placeholder
status. -/
structure CallbackInfo (Args Kw α : Type) where
  callback : SyncFunc Args Kw α
  cls : DParam (Option String)
  invoke_without_command : DParam Bool
  no_args_is_help : DParam Bool
  subcommand_metavar : DParam (Option String)
  chain : DParam Bool
  result_callback : DParam (Option Nat)
  context_settings : DParam (Option Dict)
  help : DParam (Option String)
  epilog : DParam (Option String)
  short_help : DParam (Option String)
  options_metavar : DParam (Option String)
  add_help_option : DParam Bool
  hidden : DParam Bool
  deprecated : DParam Bool
  rich_help_panel : DParam (Option String)

/-- The application level configuration values captured at construction
time (the constructor parameters that take part in callback default
resolution). -/
structure TyperInitInfo where
  cls : DParam (Option String)
  invoke_without_command : DParam Bool
  no_args_is_help : DParam Bool
  subcommand_metavar : DParam (Option String)
  chain : DParam Bool
  result_callback : DParam (Option Nat)
  context_settings : DParam (Option Dict)
  help : DParam (Option String)
  epilog : DParam (Option String)
  short_help : DParam (Option String)
  options_metavar : DParam (Option String)
  add_help_option : DParam Bool
  hidden : DParam Bool
  deprecated : DParam Bool
  rich_help_panel : DParam (Option String)
deriving DecidableEq

/-- The state of one application object: the completion flag, the
construction time configuration, the list of registered commands and the
registered callback. -/
structure AppState (Args Kw α : Type) where
  add_completion : Bool
  info : TyperInitInfo
  registered_commands : List (CommandInfo Args Kw α)
  registered_callback : Option (CallbackInfo Args Kw α)

/-- Modelled from the spec: the dispatcher constructor records the
configuration and starts with no registrations. -/
def Typer_init {Args Kw α : Type} (info : TyperInitInfo)
    (add_completion : Bool) : AppState Args Kw α :=
  ⟨add_completion, info, [], none⟩

/-- The AnyioTyper constructor (source lines 50 to 101) forwards every
parameter unchanged to the dispatcher constructor. -/
def AnyioTyper_init {Args Kw α : Type} (info : TyperInitInfo)
    (add_completion : Bool) : AppState Args Kw α :=
  Typer_init info add_completion

/-- The declared defaults of the AnyioTyper and Typer constructors: every
resolvable value is a Default placeholder (payload of options_metavar is the
OPTIONS metavar, payload of add_help_option is true, the rest none or
false). -/
def default_init_info : TyperInitInfo :=
  ⟨.default none, .default false, .default false, .default none,
   .default false, .default none, .default none, .default none,
   .default none, .default none, .default (some "[OPTIONS]"),
   .default true, .default false, .default false, .default none⟩

/-- Modelled from the spec: the native per command registration entry point
of the dispatcher (Typer command): it appends a CommandInfo holding every
parameter verbatim together with the registered synchronous function. -/
def Typer_command {Args Kw α : Type} (app : AppState Args Kw α)
    (name : Option String) (cls : Option String)
    (context_settings : Option Dict) (help : Option String)
    (epilog : Option String) (short_help : Option String)
    (options_metavar : String) (add_help_option : Bool)
    (no_args_is_help : Bool) (hidden : Bool) (deprecated : Bool)
    (rich_help_panel : DParam (Option String))
    (f : SyncFunc Args Kw α) : AppState Args Kw α :=
  { app with registered_commands := app.registered_commands ++
      [⟨name, cls, context_settings, f, help, epilog, short_help,
        options_metavar, add_help_option, no_args_is_help, hidden,
        deprecated, rich_help_panel⟩] }

/-- Modelled from the spec: the native callback registration entry point of
the dispatcher (Typer callback): it stores every parameter verbatim
together with the registered synchronous function. -/
def Typer_callback {Args Kw α : Type} (app : AppState Args Kw α)
    (cls : DParam (Option String)) (invoke_without_command : DParam Bool)
    (no_args_is_help : DParam Bool)
    (subcommand_metavar : DParam (Option String)) (chain : DParam Bool)
    (result_callback : DParam (Option Nat))
    (context_settings : DParam (Option Dict)) (help : DParam (Option String))
    (epilog : DParam (Option String)) (short_help : DParam (Option String))
    (options_metavar : DParam (Option String)) (add_help_option : DParam Bool)
    (hidden : DParam Bool) (deprecated : DParam Bool)
    (rich_help_panel : DParam (Option String))
    (f : SyncFunc Args Kw α) : AppState Args Kw α :=
  { app with registered_callback := some (CallbackInfo.mk f cls
      invoke_without_command no_args_is_help subcommand_metavar chain
      result_callback context_settings help epilog short_help
      options_metavar add_help_option hidden deprecated rich_help_panel) }

/-- The fully resolved configuration the dispatcher derives for the command
group when the application is built. -/
structure GroupConfig where
  cls : Option String
  invoke_without_command : Bool
  no_args_is_help : Bool
  subcommand_metavar : Option String
  chain : Bool
  result_callback : Option Nat
  context_settings : Option Dict
  help : Option String
  epilog : Option String
  short_help : Option String
  options_metavar : Option String
  add_help_option : Bool
  hidden : Bool
  deprecated : Bool
  rich_help_panel : Option String
deriving DecidableEq

/-- Modelled from the spec: how the dispatcher resolves one configuration
value when the application is built: a value set explicitly at callback
registration wins, else a value set explicitly at construction wins, else
the built in fallback of the dispatcher is used.  Placeholder payloads
carried by the callback registration are ignored by the resolution. -/
def solve_field {β : Type} (cb : DParam β) (inst : DParam β)
    (fallback : β) : β :=
  match cb with
  | .set v => v
  | .default _ =>
    match inst with
    | .set v => v
    | .default _ => fallback

/-- Modelled from the spec: resolution of every group configuration value
(solve_typer_info_defaults of the dispatcher); the fallbacks are the
dispatcher declared defaults. -/
def solve_typer_info_defaults {Args Kw α : Type} (info : TyperInitInfo)
    (cb : CallbackInfo Args Kw α) : GroupConfig :=
  ⟨solve_field cb.cls info.cls none,
   solve_field cb.invoke_without_command info.invoke_without_command false,
   solve_field cb.no_args_is_help info.no_args_is_help false,
   solve_field cb.subcommand_metavar info.subcommand_metavar none,
   solve_field cb.chain info.chain false,
   solve_field cb.result_callback info.result_callback none,
   solve_field cb.context_settings info.context_settings none,
   solve_field cb.help info.help none,
   solve_field cb.epilog info.epilog none,
   solve_field cb.short_help info.short_help none,
   solve_field cb.options_metavar info.options_metavar (some "[OPTIONS]"),
   solve_field cb.add_help_option info.add_help_option true,
   solve_field cb.hidden info.hidden false,
   solve_field cb.deprecated info.deprecated false,
   solve_field cb.rich_help_panel info.rich_help_panel none⟩

/-- The resolved group configuration of an application, when a callback has
been registered. -/
def resolved_callback_config {Args Kw α : Type} (app : AppState Args Kw α) :
    Option GroupConfig :=
  app.registered_callback.map (solve_typer_info_defaults app.info)

/-- A command line declaration the dispatcher derives from one declared
parameter of the registered function. -/
inductive CliDecl where
  | argument (name : String) (annot : String) : CliDecl
  | opt (name : String) (annot : String) (defaultVal : String) : CliDecl
deriving DecidableEq

/-- Modelled from the spec: the dispatcher derives the command line
argument and option declarations of a command by introspecting the declared
parameters of the registered function: a parameter with a default becomes
an option, a parameter without one becomes a positional argument. -/
def derive_cli_decls (m : FuncMeta) : List CliDecl :=
  m.params.map (fun p =>
    match p.defaultVal with
    | some d => CliDecl.opt p.name p.annot d
    | none => CliDecl.argument p.name p.annot)

/-- Outcome of one process invocation as the dispatcher reports it: the
process exit code and the result the invoked handler produced. -/
structure DispatchOutcome (α : Type) where
  exit_code : Nat
  result : PyResult α
deriving DecidableEq

/-- Modelled from the spec: the dispatch and run cycle of the dispatcher for
an application whose surface is a single command: after the process
arguments are parsed into the args and kwargs of that command (parsing
itself is out of scope per section 1 of the spec), the registered
synchronous function is invoked; the process exits 0 on success and nonzero
on an uncaught failure. -/
def Typer_main {Args Kw α : Type} (app : AppState Args Kw α) (args : Args)
    (kwargs : Kw) (h : Heap) (st : ThreadState) : DispatchOutcome α :=
  match app.registered_commands with
  | [cmd] =>
    match cmd.callback.call args kwargs h st with
    | PyResult.ok v => ⟨0, PyResult.ok v⟩
    | PyResult.exc e => ⟨1, PyResult.exc e⟩
  | _ => ⟨2, PyResult.exc ⟨"UsageError", "expected exactly one command"⟩⟩

/-- The facade command registration decorator anyio_command (source lines
185 to 302): applied to an async function it registers the bridge wrapped
function through the native command registration path, forwarding every
native configuration parameter verbatim, and returns the original async
function.  The Python declared defaults are: name none, backend asyncio,
options the default dict object commandOptionsDefault, cls none, context
settings none, help none, epilog none, short help none, the OPTIONS
metavar, add help option true, no args is help false, hidden false,
deprecated false, rich help panel a Default placeholder of none. -/
def anyio_command {Args Kw α : Type} (app : AppState Args Kw α)
    (name : Option String) (backend : String) (options : Addr)
    (cls : Option String) (context_settings : Option Dict)
    (help : Option String) (epilog : Option String)
    (short_help : Option String) (options_metavar : String)
    (add_help_option : Bool) (no_args_is_help : Bool) (hidden : Bool)
    (deprecated : Bool) (rich_help_panel : DParam (Option String))
    (async_func : AsyncFn Args Kw α) :
    AppState Args Kw α × AsyncFn Args Kw α :=
  (Typer_command app name cls context_settings help epilog short_help
      options_metavar add_help_option no_args_is_help hidden deprecated
      rich_help_panel (_wrap async_func backend options),
   async_func)

/-- The facade callback registration decorator anyio_callback (source lines
132 to 183): applied to an async function it registers the bridge wrapped
function through the native callback registration path, forwarding every
native configuration parameter verbatim, and returns the original async
function.  The Python declared defaults are: backend asyncio, options the
default dict object callbackOptionsDefault, and a Default placeholder for
every native parameter (payload true for add_help_option, payload none for
options_metavar, false or none for the rest). -/
def anyio_callback {Args Kw α : Type} (app : AppState Args Kw α)
    (backend : String) (options : Addr) (cls : DParam (Option String))
    (invoke_without_command : DParam Bool) (no_args_is_help : DParam Bool)
    (subcommand_metavar : DParam (Option String)) (chain : DParam Bool)
    (result_callback : DParam (Option Nat))
    (context_settings : DParam (Option Dict)) (help : DParam (Option String))
    (epilog : DParam (Option String)) (short_help : DParam (Option String))
    (options_metavar : DParam (Option String)) (add_help_option : DParam Bool)
    (hidden : DParam Bool) (deprecated : DParam Bool)
    (rich_help_panel : DParam (Option String))
    (async_func : AsyncFn Args Kw α) :
    AppState Args Kw α × AsyncFn Args Kw α :=
  (Typer_callback app cls invoke_without_command no_args_is_help
      subcommand_metavar chain result_callback context_settings help epilog
      short_help options_metavar add_help_option hidden deprecated
      rich_help_panel (_wrap async_func backend options),
   async_func)

/-- anyio_command as called with every optional parameter omitted: Python
fills in the declared defaults, in particular backend asyncio and the
default dict object of anyio_command. -/
def anyio_command_omitted {Args Kw α : Type} (app : AppState Args Kw α)
    (async_func : AsyncFn Args Kw α) :
    AppState Args Kw α × AsyncFn Args Kw α :=
  anyio_command app none "asyncio" commandOptionsDefault none none none none
    none "[OPTIONS]" true false false false (DParam.default none) async_func

/-- anyio_callback as called with every optional parameter omitted: Python
fills in the declared defaults, in particular backend asyncio, the default
dict object of anyio_callback, and a Default placeholder with payload none
for options_metavar. -/
def anyio_callback_omitted {Args Kw α : Type} (app : AppState Args Kw α)
    (async_func : AsyncFn Args Kw α) :
    AppState Args Kw α × AsyncFn Args Kw α :=
  anyio_callback app "asyncio" callbackOptionsDefault (DParam.default none)
    (DParam.default false) (DParam.default false) (DParam.default none)
    (DParam.default false) (DParam.default none) (DParam.default none)
    (DParam.default none) (DParam.default none) (DParam.default none)
    (DParam.default none) (DParam.default true) (DParam.default false)
    (DParam.default false) (DParam.default none) async_func

/-- The native callback registration as called with every optional
parameter omitted: the dispatcher declares a Default placeholder with
payload the OPTIONS metavar for options_metavar, unlike the facade. -/
def Typer_callback_omitted {Args Kw α : Type} (app : AppState Args Kw α)
    (g : SyncFunc Args Kw α) : AppState Args Kw α :=
  Typer_callback app (DParam.default none) (DParam.default false)
    (DParam.default false) (DParam.default none) (DParam.default false)
    (DParam.default none) (DParam.default none) (DParam.default none)
    (DParam.default none) (DParam.default none)
    (DParam.default (some "[OPTIONS]")) (DParam.default true)
    (DParam.default false) (DParam.default false) (DParam.default none) g

/-- The bridge constructor as called with its optional parameters omitted:
Python fills in backend asyncio and the default dict object of the bridge
constructor itself. -/
def _wrap_omitted {Args Kw α : Type} (f : AsyncFn Args Kw α) :
    SyncFunc Args Kw α :=
  _wrap f "asyncio" wrapOptionsDefault

/-- The command record that a registration through anyio_command with every
optional parameter omitted stores. -/
def command_info_omitted {Args Kw α : Type} (f : AsyncFn Args Kw α) :
    CommandInfo Args Kw α :=
  ⟨none, none, none, _wrap f "asyncio" commandOptionsDefault, none, none,
   none, "[OPTIONS]", true, false, false, false, DParam.default none⟩

/-- The application the module level run builds (source lines 418 to 426):
a facade instance with shell completion disabled, holding the given handler
as its sole command, registered through the facade path with the supplied
backend and options and every native parameter left at its default. -/
def run_app {Args Kw α : Type} (function : AsyncFn Args Kw α)
    (backend : String) (options : Addr) : AppState Args Kw α :=
  (anyio_command (AnyioTyper_init default_init_info false) none backend
      options none none none none none "[OPTIONS]" true false false false
      (DParam.default none) function).1

/-- The module level run (source lines 418 to 426): builds the facade
instance with completion disabled, registers the handler as the sole
command, immediately invokes the application on the parsed process
arguments, and returns nothing (the unit value stands for the Python None
an explicit return statement would not change). -/
def run {Args Kw α : Type} (function : AsyncFn Args Kw α) (backend : String)
    (options : Addr) (args : Args) (kwargs : Kw) (h : Heap)
    (st : ThreadState) : DispatchOutcome α × Unit :=
  (Typer_main (run_app function backend options) args kwargs h st, ())

/-- A sample asynchronous handler used in concrete checks: returns the sum
of its positional arguments. -/
def addHandler : AsyncFn (List Nat) (List (String × Nat)) Nat :=
  ⟨⟨"add_numbers", "Adds the given numbers.", [⟨"xs", "list[int]", none⟩]⟩,
   fun args _ => PyResult.ok (args.foldl (fun a b => a + b) 0)⟩

/-- A sample asynchronous handler that always raises a ValueError. -/
def failHandler : AsyncFn (List Nat) (List (String × Nat)) Nat :=
  ⟨⟨"always_raises", "Raises an error.", []⟩,
   fun _ _ => PyResult.exc ⟨"ValueError", "boom"⟩⟩

/-- A freshly constructed application used in concrete checks. -/
def emptyAppEx : AppState (List Nat) (List (String × Nat)) Nat :=
  AnyioTyper_init default_init_info true

/-- A sample backend options mapping used in concrete checks. -/
def uvloopDict : Dict := [("use_uvloop", "True")]

/-- Reading a dict right after mutating it yields the written contents. -/
theorem Heap.get_set_self (h : Heap) (a : Addr) (d : Dict) :
    (h.set a d).get a = d := by
  simp [Heap.get, Heap.set]

/-- Unfolding lemma for one invocation of the generated wrapper: first the
loop check, then the backend lookup, then the awaited handler result. -/
theorem wrap_call_spec {Args Kw α : Type} (f : AsyncFn Args Kw α)
    (backend : String) (options : Addr) (args : Args) (kwargs : Kw)
    (h : Heap) (st : ThreadState) :
    (_wrap f backend options).call args kwargs h st =
      (if st.loopRunning then
        PyResult.exc ⟨"RuntimeError", "Already running asyncio in this thread"⟩
      else if backend ∈ recognized_backends then
        f.call args kwargs
      else
        PyResult.exc ⟨"LookupError", "No such backend: " ++ backend⟩) := rfl

/-- C1: for every asynchronous handler F, every argument tuple and keyword
mapping valid for its signature, every dict store and every thread on which
no event loop is already running, when the chosen backend is recognized the
synchronous wrapper produced by the bridge constructor returns exactly the
value that directly awaiting F with those arguments on an independently
driven event loop returns. -/
theorem C1_wrapper_returns_awaited_result {Args Kw α : Type}
    (f : AsyncFn Args Kw α) (backend : String) (options : Addr)
    (args : Args) (kwargs : Kw) (h : Heap) (st : ThreadState)
    (hloop : st.loopRunning = false)
    (hb : backend ∈ recognized_backends) :
    (_wrap f backend options).call args kwargs h st = f.call args kwargs := by
  rw [wrap_call_spec]
  simp [hloop, hb]

/-- Concrete instance of C1: the wrapper around the sample adding handler,
invoked with no loop running on the asyncio backend, returns what awaiting
the handler returns. -/
theorem C1_wrapper_returns_awaited_result_witness :
    (ThreadState.mk false).loopRunning = false ∧
    "asyncio" ∈ recognized_backends ∧
    (_wrap addHandler "asyncio" wrapOptionsDefault).call [1, 2, 3] []
        initHeap (ThreadState.mk false) = addHandler.call [1, 2, 3] [] :=
  ⟨rfl, by decide,
   C1_wrapper_returns_awaited_result addHandler "asyncio" wrapOptionsDefault
     [1, 2, 3] [] initHeap (ThreadState.mk false) rfl (by decide)⟩

/-- C2: for every asynchronous handler F that raises when awaited, invoking
the generated wrapper with the same arguments (no loop running, recognized
backend) raises an exception of the same type with the same message, with no
wrapping or translation. -/
theorem C2_wrapper_propagates_exception {Args Kw α : Type}
    (f : AsyncFn Args Kw α) (backend : String) (options : Addr)
    (args : Args) (kwargs : Kw) (h : Heap) (st : ThreadState) (e : Exc)
    (hf : f.call args kwargs = PyResult.exc e)
    (hloop : st.loopRunning = false)
    (hb : backend ∈ recognized_backends) :
    (_wrap f backend options).call args kwargs h st = PyResult.exc e := by
  rw [wrap_call_spec]
  simp [hloop, hb, hf]

/-- Concrete instance of C2: the wrapper around the sample raising handler
raises the very same ValueError with the same message. -/
theorem C2_wrapper_propagates_exception_witness :
    failHandler.call [] [] = PyResult.exc ⟨"ValueError", "boom"⟩ ∧
    (ThreadState.mk false).loopRunning = false ∧
    "trio" ∈ recognized_backends ∧
    (_wrap failHandler "trio" wrapOptionsDefault).call [] [] initHeap
        (ThreadState.mk false) = PyResult.exc ⟨"ValueError", "boom"⟩ :=
  ⟨rfl, rfl, by decide,
   C2_wrapper_propagates_exception failHandler "trio" wrapOptionsDefault
     [] [] initHeap (ThreadState.mk false) ⟨"ValueError", "boom"⟩ rfl rfl
     (by decide)⟩

/-- C3: the wrapper produced by the bridge constructor presents the same
introspectable name, docstring and parameter declarations (names, types,
defaults) as the handler, so the dispatcher derives identical command line
argument and option declarations from either of the two. -/
theorem C3_metadata_preserved {Args Kw α : Type} (f : AsyncFn Args Kw α)
    (backend : String) (options : Addr) :
    (_wrap f backend options).meta = f.meta ∧
    derive_cli_decls (_wrap f backend options).meta =
      derive_cli_decls f.meta :=
  ⟨rfl, rfl⟩

/-- C4: registration through the facade never fails because of the backend
name or options: for every backend string, recognized or not, anyio_command
records exactly one new command and anyio_callback records the callback,
each holding the wrapper built from that backend and options.  The failure
conditions surface only when the generated wrapper is invoked: a
RuntimeError loop already running condition when a loop is active on the
calling thread, and a LookupError backend not found condition when the
backend name is unrecognized, both returned to the caller exactly as the
runtime raised them. -/
theorem C4_registration_unvalidated_failures_deferred {Args Kw α : Type}
    (app : AppState Args Kw α) (f : AsyncFn Args Kw α)
    (name : Option String) (backend : String) (options : Addr)
    (cls : Option String) (ctx : Option Dict) (hp ep sh : Option String)
    (om : String) (aho naih hid dep : Bool) (rhp : DParam (Option String))
    (cls2 : DParam (Option String)) (iwc naih2 : DParam Bool)
    (smv : DParam (Option String)) (ch : DParam Bool)
    (rc : DParam (Option Nat)) (ctx2 : DParam (Option Dict))
    (hp2 ep2 sh2 om2 : DParam (Option String)) (aho2 hid2 dep2 : DParam Bool)
    (rhp2 : DParam (Option String)) :
    ((anyio_command app name backend options cls ctx hp ep sh om aho naih
        hid dep rhp f).1.registered_commands =
      app.registered_commands ++
        [⟨name, cls, ctx, _wrap f backend options, hp, ep, sh, om, aho,
          naih, hid, dep, rhp⟩]) ∧
    ((anyio_callback app backend options cls2 iwc naih2 smv ch rc ctx2 hp2
        ep2 sh2 om2 aho2 hid2 dep2 rhp2 f).1.registered_callback =
      some (CallbackInfo.mk (_wrap f backend options) cls2 iwc naih2 smv ch
        rc ctx2 hp2 ep2 sh2 om2 aho2 hid2 dep2 rhp2)) ∧
    (∀ (args : Args) (kwargs : Kw) (h : Heap) (st : ThreadState),
      st.loopRunning = true →
      (_wrap f backend options).call args kwargs h st =
        PyResult.exc
          ⟨"RuntimeError", "Already running asyncio in this thread"⟩) ∧
    (∀ (args : Args) (kwargs : Kw) (h : Heap) (st : ThreadState),
      st.loopRunning = false → backend ∉ recognized_backends →
      (_wrap f backend options).call args kwargs h st =
        PyResult.exc ⟨"LookupError", "No such backend: " ++ backend⟩) := by
  refine ⟨rfl, rfl, ?_, ?_⟩
  · intro args kwargs h st hst
    rw [wrap_call_spec]
    simp [hst]
  · intro args kwargs h st hst hb
    rw [wrap_call_spec]
    simp [hst, hb]

/-- Concrete instance of C4: registering the sample handler under the
unrecognized backend name succeeds, and invoking the wrapper fails with the
RuntimeError condition on a thread with an active loop and with the
LookupError condition otherwise. -/
theorem C4_registration_unvalidated_failures_deferred_witness :
    ((anyio_command emptyAppEx none "not_a_backend" commandOptionsDefault
        none none none none none "[OPTIONS]" true false false false
        (DParam.default none) addHandler).1.registered_commands =
      emptyAppEx.registered_commands ++
        [⟨none, none, none,
          _wrap addHandler "not_a_backend" commandOptionsDefault, none,
          none, none, "[OPTIONS]", true, false, false, false,
          DParam.default none⟩]) ∧
    (ThreadState.mk true).loopRunning = true ∧
    "not_a_backend" ∉ recognized_backends ∧
    (_wrap addHandler "not_a_backend" commandOptionsDefault).call [] []
        initHeap (ThreadState.mk true) =
      PyResult.exc
        ⟨"RuntimeError", "Already running asyncio in this thread"⟩ ∧
    (_wrap addHandler "not_a_backend" commandOptionsDefault).call [] []
        initHeap (ThreadState.mk false) =
      PyResult.exc ⟨"LookupError", "No such backend: " ++ "not_a_backend"⟩ :=
  have h4 := C4_registration_unvalidated_failures_deferred emptyAppEx
    addHandler none "not_a_backend" commandOptionsDefault none none none
    none none "[OPTIONS]" true false false false (DParam.default none)
    (DParam.default none) (DParam.default false) (DParam.default false)
    (DParam.default none) (DParam.default false) (DParam.default none)
    (DParam.default none) (DParam.default none) (DParam.default none)
    (DParam.default none) (DParam.default none) (DParam.default true)
    (DParam.default false) (DParam.default false) (DParam.default none)
  ⟨h4.1, rfl, by decide,
   h4.2.2.1 [] [] initHeap (ThreadState.mk true) rfl,
   h4.2.2.2 [] [] initHeap (ThreadState.mk false) rfl (by decide)⟩

/-- Counterexample to C5 as stated: the options mapping is not copied into
the closure at registration and is not immutable thereafter.  The same
wrapper, registered while its options dict was empty, issues a different
runtime invocation after the dict is mutated in place: the options the
runtime receives are the mutated contents, not the contents captured at
registration. -/
theorem C5_options_not_copied_counterexample :
    (_wrap addHandler "asyncio" wrapOptionsDefault).runtimeCall [] []
        (initHeap.set wrapOptionsDefault uvloopDict) ≠
    (_wrap addHandler "asyncio" wrapOptionsDefault).runtimeCall [] []
        initHeap := by
  decide

/-- C5 amended: the backend name and the reference to the options mapping
are captured in the closure at registration and never change: every
invocation uses exactly the captured backend name and hands exactly the
captured options object to the runtime.  The mapping itself is shared by
reference rather than copied, so the contents delivered are whatever the
dict holds at invocation time, and a mutation of the mapping after
registration changes what a later invocation passes to the runtime. -/
theorem C5_captured_reference_amended {Args Kw α : Type}
    (f : AsyncFn Args Kw α) (backend : String) (options : Addr)
    (args : Args) (kwargs : Kw) (h : Heap) :
    (_wrap f backend options).backend = backend ∧
    (_wrap f backend options).optionsRef = options ∧
    (_wrap f backend options).runtimeCall args kwargs h =
      ⟨backend, options, h.get options, args, kwargs⟩ ∧
    (∀ d : Dict, (_wrap f backend options).runtimeCall args kwargs
        (h.set options d) = ⟨backend, options, d, args, kwargs⟩) := by
  refine ⟨rfl, rfl, rfl, fun d => ?_⟩
  simp [SyncFunc.runtimeCall, _wrap, Heap.get_set_self]

/-- C6: each facade registration decorator returns the original
asynchronous handler object itself, unmodified, whatever the backend name,
options and native configuration parameters supplied; the registration is
purely a side effect on the application state. -/
theorem C6_returns_original_handler {Args Kw α : Type}
    (app : AppState Args Kw α) (f : AsyncFn Args Kw α)
    (name : Option String) (backend : String) (options : Addr)
    (cls : Option String) (ctx : Option Dict) (hp ep sh : Option String)
    (om : String) (aho naih hid dep : Bool) (rhp : DParam (Option String))
    (cls2 : DParam (Option String)) (iwc naih2 : DParam Bool)
    (smv : DParam (Option String)) (ch : DParam Bool)
    (rc : DParam (Option Nat)) (ctx2 : DParam (Option Dict))
    (hp2 ep2 sh2 om2 : DParam (Option String)) (aho2 hid2 dep2 : DParam Bool)
    (rhp2 : DParam (Option String)) :
    (anyio_command app name backend options cls ctx hp ep sh om aho naih
      hid dep rhp f).2 = f ∧
    (anyio_callback app backend options cls2 iwc naih2 smv ch rc ctx2 hp2
      ep2 sh2 om2 aho2 hid2 dep2 rhp2 f).2 = f :=
  ⟨rfl, rfl⟩

/-- C7: each facade registration entry point forwards every native
configuration parameter it accepts verbatim to the native registration entry
point of the dispatcher, applied to the bridge wrapped handler, adding only
the backend name and the options mapping; the default semantics are
unchanged: although the facade callback declares a placeholder payload of
none for options_metavar where the native entry point declares the OPTIONS
metavar, the resolved group configuration with all parameters omitted is
identical, and the added parameters default to the asyncio backend and an
empty options mapping. -/
theorem C7_native_params_forwarded_verbatim {Args Kw α : Type}
    (app : AppState Args Kw α) (f : AsyncFn Args Kw α)
    (name : Option String) (backend : String) (options : Addr)
    (cls : Option String) (ctx : Option Dict) (hp ep sh : Option String)
    (om : String) (aho naih hid dep : Bool) (rhp : DParam (Option String))
    (cls2 : DParam (Option String)) (iwc naih2 : DParam Bool)
    (smv : DParam (Option String)) (ch : DParam Bool)
    (rc : DParam (Option Nat)) (ctx2 : DParam (Option Dict))
    (hp2 ep2 sh2 om2 : DParam (Option String)) (aho2 hid2 dep2 : DParam Bool)
    (rhp2 : DParam (Option String)) :
    ((anyio_command app name backend options cls ctx hp ep sh om aho naih
        hid dep rhp f).1 =
      Typer_command app name cls ctx hp ep sh om aho naih hid dep rhp
        (_wrap f backend options)) ∧
    ((anyio_callback app backend options cls2 iwc naih2 smv ch rc ctx2 hp2
        ep2 sh2 om2 aho2 hid2 dep2 rhp2 f).1 =
      Typer_callback app cls2 iwc naih2 smv ch rc ctx2 hp2 ep2 sh2 om2 aho2
        hid2 dep2 rhp2 (_wrap f backend options)) ∧
    (resolved_callback_config (anyio_callback_omitted app f).1 =
      resolved_callback_config
        (Typer_callback_omitted app
          (_wrap f "asyncio" callbackOptionsDefault))) ∧
    initHeap.get commandOptionsDefault = [] ∧
    initHeap.get callbackOptionsDefault = [] :=
  ⟨rfl, rfl, rfl, rfl, rfl⟩

/-- C8: the module level run builds a facade instance with shell completion
disabled, registers the given handler as the sole command with the supplied
backend name and options through the facade registration path, immediately
triggers the dispatch and run cycle on that application, and returns
nothing to its caller. -/
theorem C8_run_single_command_cycle {Args Kw α : Type}
    (f : AsyncFn Args Kw α) (backend : String) (options : Addr)
    (args : Args) (kwargs : Kw) (h : Heap) (st : ThreadState) :
    (run f backend options args kwargs h st).2 = () ∧
    (run_app f backend options).add_completion = false ∧
    (run_app f backend options).registered_commands =
      [⟨none, none, none, _wrap f backend options, none, none, none,
        "[OPTIONS]", true, false, false, false, DParam.default none⟩] ∧
    (run f backend options args kwargs h st).1 =
      Typer_main (run_app f backend options) args kwargs h st :=
  ⟨rfl, rfl, rfl, rfl⟩

/-- C9: for a backend agnostic asynchronous handler (one whose awaited
result does not consult the backend), two invocations of wrappers that
differ only in the backend identifier chosen at registration, both
supported, return the same value in every thread state and every store. -/
theorem C9_backend_choice_irrelevant {Args Kw α : Type}
    (f : AsyncFn Args Kw α) (b1 b2 : String) (options : Addr)
    (args : Args) (kwargs : Kw) (h : Heap) (st : ThreadState)
    (hb1 : b1 ∈ recognized_backends) (hb2 : b2 ∈ recognized_backends) :
    (_wrap f b1 options).call args kwargs h st =
      (_wrap f b2 options).call args kwargs h st := by
  rw [wrap_call_spec, wrap_call_spec]
  cases hl : st.loopRunning
  · simp [hl, hb1, hb2]
  · simp [hl]

/-- Concrete instance of C9: the sample adding handler behaves identically
under the asyncio and the trio backends. -/
theorem C9_backend_choice_irrelevant_witness :
    "asyncio" ∈ recognized_backends ∧
    "trio" ∈ recognized_backends ∧
    (_wrap addHandler "asyncio" wrapOptionsDefault).call [4, 5] [] initHeap
        (ThreadState.mk false) =
      (_wrap addHandler "trio" wrapOptionsDefault).call [4, 5] [] initHeap
        (ThreadState.mk false) :=
  ⟨by decide, by decide,
   C9_backend_choice_irrelevant addHandler "asyncio" "trio"
     wrapOptionsDefault [4, 5] [] initHeap (ThreadState.mk false)
     (by decide) (by decide)⟩

/-- Counterexample to C10 as stated: the registration entry points do not
bind one and the same module level default dict: a registration through
anyio_command that omits options binds the default dict object of
anyio_command, while a direct bridge constructor call omitting options
binds the distinct default dict object of the bridge constructor, and
mutating the first in place leaves the options the second wrapper delivers
unchanged. -/
theorem C10_single_default_dict_counterexample :
    ((anyio_command_omitted emptyAppEx addHandler).1.registered_commands.map
        (fun c => c.callback.optionsRef) = [commandOptionsDefault]) ∧
    (_wrap_omitted addHandler).optionsRef = wrapOptionsDefault ∧
    commandOptionsDefault ≠ wrapOptionsDefault ∧
    ((_wrap_omitted addHandler).runtimeCall [] []
        (initHeap.set commandOptionsDefault uvloopDict)).options_contents =
      [] := by
  decide

/-- C10 amended: each of the four entry points (the bridge constructor,
anyio_command, anyio_callback and run) evaluated its own options default
once at module definition time, so registrations that omit options through
the same entry point share that single per entry point dict object, while
the four defaults are four distinct objects rather than one shared module
level dict.  Every generated wrapper holds its options mapping by reference
and passes the reference to the blocking run entry point of the runtime on
every invocation; the mapping is never copied, so a mutation of a caller
supplied options dict after registration is observed by later invocations
of the wrapper. -/
theorem C10_per_entry_point_default_shared_amended {Args Kw α : Type}
    (app : AppState Args Kw α) (f g : AsyncFn Args Kw α) (args : Args)
    (kwargs : Kw) (h : Heap) :
    ((anyio_command_omitted ((anyio_command_omitted app f).1)
        g).1.registered_commands =
      app.registered_commands ++
        [command_info_omitted f, command_info_omitted g]) ∧
    (command_info_omitted f).callback.optionsRef = commandOptionsDefault ∧
    (command_info_omitted g).callback.optionsRef = commandOptionsDefault ∧
    (∀ (backend : String) (o : Addr),
      (_wrap f backend o).runtimeCall args kwargs h =
        ⟨backend, o, h.get o, args, kwargs⟩) ∧
    (∀ (backend : String) (o : Addr) (d : Dict),
      ((_wrap f backend o).runtimeCall args kwargs
          (h.set o d)).options_contents = d) ∧
    [wrapOptionsDefault, callbackOptionsDefault, commandOptionsDefault,
      runOptionsDefault].Nodup := by
  refine ⟨?_, rfl, rfl, fun backend o => rfl, fun backend o d => ?_,
    by decide⟩
  · simp [anyio_command_omitted, anyio_command, Typer_command,
      command_info_omitted]
  · simp [SyncFunc.runtimeCall, _wrap, Heap.get_set_self]

end AnyioTyperModel
